import Mathlib

/-!
Verification of the watchdog_scraper repository: a shallow embedding of
`src/app/scraper/scraper_service.py` and `src/main.py` in Lean 4, together
with theorems settling the frozen claims about the code.

Modelling conventions:
* Python strings are Lean `String`s; all scanning is done on `String.data`
  (lists of unicode code points), matching Python's code-point semantics
  for `len`, slicing and iteration.
* `int(n * 0.25)` equals `n / 4` (natural division) for every realistic
  length (exact for all `n < 2 ^ 53`, since 0.25 is a power of two).
* Float comparisons `density > 0.05` and `density <= 0.05` with
  `density = k / L` are modelled by the exact rational comparisons
  `20 * k > L` and `20 * k <= L`; for realistic lengths (`L < 10 ^ 15`)
  the double rounding of `k / L` never crosses `0.05`, so this is exact.
* External I/O (DNS answers, the playwright engine, captured responses) is
  an explicit `Env` record: each fallible external step is given an
  `Option Exc` outcome (`none` = the step succeeds, `some e` = the step
  raises `e`).  A Python exception escaping the function is the
  `SessionOutcome.raised` constructor; a `return` is `SessionOutcome.returned`.
* `asyncio.CancelledError` is `Exc.cancelled` (a `BaseException`: *not*
  caught by `except Exception`), `playwright TimeoutError` is `Exc.timeoutE`,
  every other `Exception` is `Exc.other msg`.
-/

set_option maxHeartbeats 1000000

/-- Exceptions that the scrape session distinguishes. -/
inductive Exc where
  | cancelled
  | timeoutE
  | other (msg : String)
deriving DecidableEq

/-! ## Regex `0x[0-9a-fA-F]+`: a character scanner

`re.finditer` returns the non-overlapping, leftmost, greedy matches.  The
scanner below walks the character list with a four-state automaton and
counts exactly those matches. -/

/-- `[0-9a-fA-F]` -/
def isHexDigit (c : Char) : Bool :=
  (decide ('0' ≤ c) && decide (c ≤ '9')) ||
  (decide ('a' ≤ c) && decide (c ≤ 'f')) ||
  (decide ('A' ≤ c) && decide (c ≤ 'F'))

/-- Scanner state: `norm` = scanning; `sawZero` = previous char was a `'0'`
that may open a match; `sawZeroX` = consumed `"0x"`, need one hex digit;
`inDigits` = inside the greedy `[0-9a-fA-F]+` run of a counted match. -/
inductive ScanSt where
  | norm
  | sawZero
  | sawZeroX
  | inDigits
deriving DecidableEq

/-- Count the matches of `0x[0-9a-fA-F]+` in a character list, scanning
left to right, non-overlapping, greedy — exactly `re.finditer`'s count. -/
def hexScan : ScanSt → List Char → Nat
  | _, [] => 0
  | .norm, c :: rest =>
      if c = '0' then hexScan .sawZero rest else hexScan .norm rest
  | .sawZero, c :: rest =>
      if c = 'x' then hexScan .sawZeroX rest
      else if c = '0' then hexScan .sawZero rest
      else hexScan .norm rest
  | .sawZeroX, c :: rest =>
      if isHexDigit c then 1 + hexScan .inDigits rest
      else hexScan .norm rest
  | .inDigits, c :: rest =>
      if isHexDigit c then hexScan .inDigits rest
      else hexScan .norm rest

/-- Number of `0x[0-9a-fA-F]+` matches in a string. -/
def hexCount (s : List Char) : Nat := hexScan .norm s

/-! ## `detect_obfuscation` (scraper_service.py lines 58–97)

The density/sample parameters are fixed at their default values
(`threshold=5`, `density_threshold=0.05`, `sample_ratio=0.25`), which is
how the sole call site (line 219) invokes the function.

The function returns `Option Bool`: `some b` models `return b`; `none`
models the `ZeroDivisionError` raised by `hex_count / sample_length` when
`sample_length == 0` (that division, line 84, is evaluated before the
comparison on line 85). -/

def detect_obfuscation (js_code : String) : Option Bool :=
  let code := js_code.data
  let code_length := code.length
  if code_length = 0 then some false
  else
    let sample_length := code_length / 4
    let sample_code := code.take sample_length
    let mSample := hexCount sample_code
    -- the for-loop over the sample returns at the 6th match (hex_count > 5)
    -- with density = 6 / sample_length, i.e. positive iff sample_length < 120
    if 5 < mSample then some (decide (sample_length < 120))
    else if sample_length = 0 then none  -- ZeroDivisionError: hex_count / 0
    else if 20 * mSample ≤ sample_length then some false
    else
      -- continue over js_code[sample_length:], hex_count carried over;
      -- the first match reaching hex_count = 6 returns 6 / code_length > 0.05
      let mTotal := mSample + hexCount (code.drop sample_length)
      if 5 < mTotal then some (decide (code_length < 120))
      else some (decide (20 * mTotal > code_length))

/-! ## Python `urllib.parse` fragments used by the code -/

/-- Characters allowed in a URL scheme after the leading letter. -/
def schemeChar (c : Char) : Bool := c.isAlphanum || c = '+' || c = '-' || c = '.'

/-- `urlsplit` scheme detection: the text before the first `':'` must be
nonempty, start with a letter and consist of scheme characters; returns
`(scheme, rest)` on success. -/
def pySplitScheme (u : String) : Option (String × String) :=
  let cs := u.data
  match cs.findIdx? (· = ':') with
  | none => none
  | some i =>
    match cs.take i with
    | [] => none
    | c0 :: _ =>
      if c0.isAlpha && (cs.take i).all schemeChar
      then some (⟨cs.take i⟩, ⟨cs.drop (i + 1)⟩)
      else none

/-- Drop the scheme (everything up to and including the first `':'`) when a
valid scheme is present; otherwise the URL unchanged. -/
def stripUrlScheme (u : String) : String :=
  match pySplitScheme u with
  | some (_, rest) => rest
  | none => u

/-- A character that may appear inside the netloc component. -/
def netlocChar (c : Char) : Bool := !(c = '/') && !(c = '?') && !(c = '#')

/-- `urlparse(u).netloc`: present only when the scheme-stripped URL starts
with `"//"`, in which case it extends to the next `/`, `?` or `#`. -/
def pyNetloc (u : String) : String :=
  match (stripUrlScheme u).data with
  | '/' :: '/' :: tail => ⟨tail.takeWhile netlocChar⟩
  | _ => ""

/-- `urlparse`'s `_splitparams`: cut the path at the first `';'` occurring
after the last `'/'` (or anywhere, when the path has no `'/'`). -/
def pySplitParamsPath (p : List Char) : List Char :=
  if p.contains '/' then
    let rev := p.reverse
    let afterRev := rev.takeWhile (fun c => !(c = '/'))
    let after := afterRev.reverse
    if after.contains ';' then
      (rev.drop afterRev.length).reverse ++ after.takeWhile (fun c => !(c = ';'))
    else p
  else if p.contains ';' then p.takeWhile (fun c => !(c = ';')) else p

/-- `urlparse(u).path`. -/
def pyUrlPath (u : String) : String :=
  let rest := (stripUrlScheme u).data
  let afterNet :=
    match rest with
    | '/' :: '/' :: tail => tail.dropWhile netlocChar
    | _ => rest
  ⟨pySplitParamsPath (afterNet.takeWhile (fun c => !(c = '?') && !(c = '#')))⟩

/-- `url.startswith("http")` (scraper_service.py line 104): note that the
code tests this `"http"` prefix, not the presence of a URL scheme. -/
def startsWithHttp (u : String) : Bool :=
  match u.data with
  | 'h' :: 't' :: 't' :: 'p' :: _ => true
  | _ => false

/-- Lines 104–105: prepend `"https://"` when the URL does not start with
`"http"`. -/
def normalizeUrl (u : String) : String :=
  if startsWithHttp u then u else "https://" ++ u

/-- The spec's notion from the phrase "the input lacked a scheme"
(C10): a URL has a scheme when `urlparse` finds one.  This definition
follows the spec's words, for comparison against the code's
`startsWithHttp` test. -/
def specHasScheme (u : String) : Bool := (pySplitScheme u).isSome

/-- Python truthiness of `html_content or ""` (an empty string is falsy). -/
def pyOrEmptyStr (s : String) : String := if s = "" then "" else s

theorem pyOrEmptyStr_eq (s : String) : pyOrEmptyStr s = s := by
  unfold pyOrEmptyStr
  split <;> simp_all

/-- `str(list_of_strings)` in Python: `['a', 'b']`.  (Assumes, as holds for
URL paths, that the entries contain no quote or backslash characters that
`repr` would escape.) -/
def pyStrList (l : List String) : String :=
  let q : Char := Char.ofNat 39  -- the single-quote character
  let quoted := l.map (fun s => String.singleton q ++ s ++ String.singleton q)
  match quoted with
  | [] => "[]"
  | x :: xs => "[" ++ xs.foldl (fun acc y => acc ++ ", " ++ y) x ++ "]"

/-! ## Data model: `ScrapeResult` dictionaries

The result dictionaries are heterogeneous in Python; the sum types below
capture the exact value shapes the code produces. -/

/-- A Python value that is either `False` or a host string
(`redirect_domain`). -/
inductive PyStrOrFalse where
  | falseV
  | strV (s : String)
deriving DecidableEq

/-- The `script_paths` entry: `str(js_filepaths)` on most paths, but the
raw empty list object on the `Cancelled` path (line 230). -/
inductive PyPaths where
  | pyStr (s : String)
  | pyList (l : List String)
deriving DecidableEq

/-- The result dictionary of one scrape session.  `error = none` models the
absence of the `"error"` key (the dict at lines 280–288 has no such key). -/
structure ScrapeResult where
  domain : String
  status_code : String
  ip : Option (List String)
  obfuscation : Bool
  script_paths : PyPaths
  redirect_domain : PyStrOrFalse
  html_content : String
  error : Option String
deriving DecidableEq

/-- How one call of `scrape_website_async` ends: a returned dictionary, or
an exception propagating to the caller. -/
inductive SessionOutcome where
  | returned (r : ScrapeResult)
  | raised (e : Exc)
deriving DecidableEq

/-- The result dictionary, when the session returned one. -/
def outcomeResult : SessionOutcome → Option ScrapeResult
  | .returned r => some r
  | .raised _ => none

/-- Observable side effects of one session: the success flags passed to
`proxy_manager.update_load_time`, in order (its length is the number of
calls), and whether the browser / context / page were ever opened. -/
structure SessionLog where
  updateCalls : List Bool
  browserOpened : Bool
  contextOpened : Bool
  pageOpened : Bool
deriving DecidableEq

/-! ## External world: DNS and the rendering engine -/

/-- Outcome of `resolver.resolve(domain, 'A')` — external network I/O. -/
inductive ResolverOutcome where
  | answers (ips : List String)   -- resolution succeeded with these A records
  | knownFail                     -- NXDOMAIN / NoAnswer / dns Timeout
  | raisesOther (msg : String)    -- any other resolver exception (not caught)
deriving DecidableEq

/-- `dns_resolve` (lines 39–47): catches exactly `NXDOMAIN`, `NoAnswer` and
`Timeout`, turning them into `None`; any other resolver exception
propagates (`Except.error`). -/
def dns_resolve (oracle : String → ResolverOutcome) (domain : String) :
    Except Exc (Option (List String)) :=
  match oracle domain with
  | .answers ips => .ok (some ips)
  | .knownFail => .ok none
  | .raisesOther m => .error (.other m)

/-- The external environment of one session: the DNS oracle, the outcome of
each fallible playwright step (`none` = succeeds), the observed page data
and the captured `(script url, script body)` pairs.  `poll`/`pollFuel`
describe the contents the convergence loop would observe if it ran. -/
structure Env where
  dns : String → ResolverOutcome
  launchExc : Option Exc      -- playwright.chromium.launch (line 147)
  contextExc : Option Exc     -- browser.new_context (line 148)
  pageExc : Option Exc        -- context.new_page (line 157)
  gotoExc : Option Exc        -- page.goto(url) (line 177)
  contentExc : Option Exc     -- first page.content() (line 181)
  content1 : String           -- its value when it succeeds
  waitExc : Option Exc        -- page.wait_for_selector("body", ...) (line 185)
  finalUrl : String           -- page.url (line 190)
  poll : Nat → String         -- page.content() inside the loop (line 199)
  pollFuel : Nat              -- scheduler allowance for the loop
  scripts : List (String × String)  -- captured (url, body) pairs after gather
  gatherExc : Option Exc      -- asyncio.gather(*script_capture_tasks) (line 216)
  ctxCloseExc : Option Exc    -- context.close() (line 269)
  pageCloseExc : Option Exc   -- page.close() (line 274)
  browserCloseExc : Option Exc  -- browser.close() (line 276)

/-! ## The convergence loop (lines 192–211) -/

/-- The loop's mutable state: the three counters, `previous_content`,
`current_content` and the `status_code` variable. -/
structure LoopState where
  total : Nat
  unchanged : Nat
  changed : Nat
  previous : Option String
  current : String
  status : String
deriving DecidableEq

/-- The `while total_iterations < (unchanged_iterations + changed_iterations)`
loop, verbatim: body sets `status_code = "loading"`, increments the
iteration count, re-snapshots, updates the counters and breaks on either
limit.  `fuel` bounds the number of iterations the scheduler allows (the
theorems show the result is independent of it). -/
def convergenceLoop (poll : Nat → String) (no_change_limit change_limit : Nat) :
    Nat → LoopState → LoopState
  | 0, s => s
  | fuel + 1, s =>
    if s.total < s.unchanged + s.changed then
      let c := poll s.total
      let s1 : LoopState := { s with status := "loading", total := s.total + 1, current := c }
      if s1.previous ≠ some c then
        let s2 : LoopState := { s1 with previous := some c, unchanged := 0, changed := s1.changed + 1 }
        if s2.changed ≥ change_limit then s2
        else if s2.unchanged ≥ no_change_limit then s2
        else convergenceLoop poll no_change_limit change_limit fuel s2
      else
        let s2 : LoopState := { s1 with unchanged := s1.unchanged + 1, changed := 0 }
        if s2.unchanged ≥ no_change_limit then s2
        else convergenceLoop poll no_change_limit change_limit fuel s2
    else s

/-! ## The obfuscation loop over captured scripts (lines 218–221) -/

/-- `for script in script_contents: if detect_obfuscation(script): ... break`.
`Except.error` models the `ZeroDivisionError` escaping from
`detect_obfuscation` (see its `none` result). -/
def obfLoop : List String → Except String Bool
  | [] => .ok false
  | s :: rest =>
    match detect_obfuscation s with
    | none => .error "division by zero"
    | some true => .ok true
    | some false => obfLoop rest

/-! ## The try-block of `scrape_website_async` (lines 144–221) -/

/-- The local variables that the exception handlers read: their values at
the moment an exception is raised (or at the end of the block). -/
structure TryState where
  redirect_domain : PyStrOrFalse
  has_obfuscation : Bool
  js_filepaths : List String
  html_content : String
  status_code : String
deriving DecidableEq

/-- Result of running the try-block: final variable state, the exception
raised inside it (if any), and which resources were opened. -/
structure TryOut where
  st : TryState
  exc : Option Exc
  browserOpened : Bool
  contextOpened : Bool
  pageOpened : Bool
deriving DecidableEq

/-- `is_redirected_to_different_domain` (lines 50–56). -/
def is_redirected_to_different_domain (initial_url final_url : String) : PyStrOrFalse :=
  let initial_domain := pyNetloc initial_url
  let final_domain := pyNetloc final_url
  if initial_domain ≠ final_domain then .strV final_domain else .falseV

/-- The body of the `try:` block, step by step in source order:
launch → new_context → new_page → install handlers → goto → first
`page.content()` → `wait_for_selector` → redirect computation →
convergence loop → `status_code = "complete"` → gather captures →
script paths → obfuscation loop. -/
def tryBody (url : String) (no_change_limit change_limit : Nat) (env : Env) : TryOut :=
  let st0 : TryState := ⟨.falseV, false, [], "", "Failed"⟩
  match env.launchExc with
  | some e => ⟨st0, some e, false, false, false⟩
  | none =>
  match env.contextExc with
  | some e => ⟨st0, some e, true, false, false⟩
  | none =>
  match env.pageExc with
  | some e => ⟨st0, some e, true, true, false⟩
  | none =>
  match env.gotoExc with
  | some e => ⟨st0, some e, true, true, true⟩
  | none =>
  match env.contentExc with
  | some e => ⟨st0, some e, true, true, true⟩
  | none =>
  let st1 : TryState := { st0 with html_content := env.content1 }
  match env.waitExc with
  | some e => ⟨st1, some e, true, true, true⟩
  | none =>
  let st2 : TryState :=
    { st1 with redirect_domain := is_redirected_to_different_domain url env.finalUrl }
  let loopEnd := convergenceLoop env.poll no_change_limit change_limit env.pollFuel
    ⟨0, 0, 0, none, st2.html_content, st2.status_code⟩
  let st3 : TryState := { st2 with status_code := "complete", html_content := loopEnd.current }
  match env.gatherExc with
  | some e => ⟨st3, some e, true, true, true⟩
  | none =>
  let st4 : TryState := { st3 with js_filepaths := env.scripts.map (fun p => pyUrlPath p.1) }
  match obfLoop (env.scripts.map Prod.snd) with
  | .error m => ⟨st4, some (.other m), true, true, true⟩
  | .ok b => ⟨{ st4 with has_obfuscation := b }, none, true, true, true⟩

/-! ## The result dictionaries of each exit path -/

/-- The DNS-error dictionary (lines 131–140): note `domain` is the parsed
netloc, `ip` is `None`, `html_content` is empty. -/
def dnsErrorResult (domain : String) : ScrapeResult :=
  { domain := domain
    status_code := "DNS Error"
    ip := none
    obfuscation := false
    script_paths := .pyStr (pyStrList [])
    redirect_domain := .falseV
    html_content := ""
    error := some ("DNS resolution failed for " ++ domain) }

/-- The `asyncio.CancelledError` dictionary (lines 225–234): `ip` is `None`
and `html_content` is `""` even when partial data had been gathered;
`script_paths` is the raw `[]` list. -/
def cancelResult (url domain : String) : ScrapeResult :=
  { domain := url
    status_code := "Cancelled"
    ip := none
    obfuscation := false
    script_paths := .pyList []
    redirect_domain := .falseV
    html_content := ""
    error := some ("Task was cancelled for " ++ domain) }

/-- The playwright-timeout dictionary (lines 238–247). -/
def timeoutResult (url : String) (ips : List String) (st : TryState) : ScrapeResult :=
  { domain := url
    status_code := "Timeout"
    ip := some ips
    obfuscation := st.has_obfuscation
    script_paths := .pyStr (pyStrList st.js_filepaths)
    redirect_domain := st.redirect_domain
    html_content := pyOrEmptyStr st.html_content
    error := some "Timeout occurred." }

/-- The generic-exception dictionary (lines 252–261). -/
def failResult (url : String) (ips : List String) (st : TryState) (msg : String) : ScrapeResult :=
  { domain := url
    status_code := "Failed"
    ip := some ips
    obfuscation := st.has_obfuscation
    script_paths := .pyStr (pyStrList st.js_filepaths)
    redirect_domain := st.redirect_domain
    html_content := pyOrEmptyStr st.html_content
    error := some msg }

/-- The dictionary returned after the try-block completes (lines 280–288):
no `"error"` key. -/
def completeResult (url : String) (ips : List String) (st : TryState) : ScrapeResult :=
  { domain := url
    status_code := st.status_code
    ip := some ips
    obfuscation := st.has_obfuscation
    script_paths := .pyStr (pyStrList st.js_filepaths)
    redirect_domain := st.redirect_domain
    html_content := pyOrEmptyStr st.html_content
    error := none }

/-! ## The `finally:` block (lines 263–278)

`update_load_time` is invoked first, unconditionally.  `context.close()` is
wrapped in `try/except Exception` — so a failure there is swallowed
*unless* it is a `CancelledError` (which `except Exception` does not
catch).  `page.close()` and `browser.close()` are not guarded at all: an
exception from either escapes the whole function, discarding any pending
`return` value. -/

/-- The exception (if any) escaping from the `finally:` block's close
calls.  A step's close is only attempted when the resource was opened, and
a propagating exception skips the remaining closes. -/
def finallyEscape (env : Env) (contextOpened pageOpened browserOpened : Bool) : Option Exc :=
  match (if contextOpened then env.ctxCloseExc else none) with
  | some .cancelled => some .cancelled
  | _ =>
    match (if pageOpened then env.pageCloseExc else none) with
    | some e => some e
    | none => (if browserOpened then env.browserCloseExc else none)

/-- The part of the session after a successful DNS gate: run the try-block,
select the pending result by exception identity (lines 223–261), then run
the `finally:` block — `update_load_time(proxy, elapsed, proxy_success)`
with `proxy_success = false` only on the generic-`Exception` path — and
either propagate a teardown exception or return the pending dictionary. -/
def mainSession (url domain : String) (ips : List String)
    (no_change_limit change_limit : Nat) (env : Env) : SessionOutcome × SessionLog :=
  let t := tryBody url no_change_limit change_limit env
  let pending : ScrapeResult :=
    match t.exc with
    | none => completeResult url ips t.st
    | some .cancelled => cancelResult url domain
    | some .timeoutE => timeoutResult url ips t.st
    | some (.other m) => failResult url ips t.st m
  let psucc : Bool :=
    match t.exc with
    | some (.other _) => false
    | _ => true
  let log1 : SessionLog := ⟨[psucc], t.browserOpened, t.contextOpened, t.pageOpened⟩
  match finallyEscape env t.contextOpened t.pageOpened t.browserOpened with
  | some e => (.raised e, log1)
  | none => (.returned pending, log1)

/-- `scrape_website_async` (lines 101–288).  The `max_wait_time` and
`check_interval` parameters only scale real time and are dropped;
`no_change_limit` and `change_limit` (defaults 3 and 4) are explicit.
The DNS pre-check (line 127) happens before the `try:` block: its
`DNS Error` return — and an uncaught resolver exception — bypass the
`finally:` block entirely, so no `update_load_time` call and no browser
work happen on those paths. -/
def scrape_website_async (url0 : String) (no_change_limit change_limit : Nat)
    (env : Env) : SessionOutcome × SessionLog :=
  let url := normalizeUrl url0
  let domain := pyNetloc url
  match dns_resolve env.dns domain with
  | .error e => (.raised e, ⟨[], false, false, false⟩)
  | .ok none => (.returned (dnsErrorResult domain), ⟨[], false, false, false⟩)
  | .ok (some []) => (.returned (dnsErrorResult domain), ⟨[], false, false, false⟩)
  | .ok (some (ip0 :: rest)) =>
      mainSession url domain (ip0 :: rest) no_change_limit change_limit env

/-- The netloc the session resolves for an input URL. -/
def sessionDomain (url0 : String) : String := pyNetloc (normalizeUrl url0)

/-- Whether the DNS gate passes (a nonempty A-record list): exactly the
sessions that enter the `try`/`finally` part. -/
def dnsGate : ResolverOutcome → Bool
  | .answers (_ :: _) => true
  | _ => false

/-! ## The request filter `handle_request` (lines 304–328) -/

/-- The decision taken on one intercepted request. -/
inductive RouteAction where
  | aborted
  | continued
deriving DecidableEq

/-- Resource types aborted unconditionally (line 310). -/
def blockedResourceTypes : List String := ["image", "stylesheet", "font", "media", "document"]

/-- Substring blocklist of ad/analytics hosts (line 313). -/
def adBlocklist : List String := ["ads", "analytics", "doubleclick", "googletagmanager", "adservice"]

/-- `needle` occurs at the start of `hay`. -/
def listSubHere : List Char → List Char → Bool
  | [], _ => true
  | _ :: _, [] => false
  | n :: ns, h :: hs => n = h && listSubHere ns hs

/-- `needle in hay` — Python substring containment. -/
def listHasSub (needle : List Char) : List Char → Bool
  | [] => needle.isEmpty
  | c :: hs => listSubHere needle (c :: hs) || listHasSub needle hs

/-- Python `needle in hay` on strings. -/
def strContainsSub (hay needle : String) : Bool := listHasSub needle.data hay.data

/-- `handle_request` (lines 304–321), as the pure decision plus the updated
dedup set: first match wins — blocked resource type, then ad/analytics
substring, then the duplicate check against `loaded_resources`; otherwise
the URL is recorded and the request continues. -/
def handle_request (resource_type url : String) (loaded_resources : List String) :
    RouteAction × List String :=
  if blockedResourceTypes.contains resource_type then (.aborted, loaded_resources)
  else if adBlocklist.any (fun d => strContainsSub url d) then (.aborted, loaded_resources)
  else if loaded_resources.contains url then (.aborted, loaded_resources)
  else (.continued, url :: loaded_resources)

/-- Run a session's request sequence (each element is
`(resource_type, url)`) through the filter, threading the dedup set;
returns the per-request decisions. -/
def runRequests : List (String × String) → List String → List RouteAction
  | [], _ => []
  | (rt, u) :: rest, loaded =>
      (handle_request rt u loaded).1 :: runRequests rest (handle_request rt u loaded).2

/-- The dedup set after a request sequence. -/
def finalLoaded : List (String × String) → List String → List String
  | [], loaded => loaded
  | (rt, u) :: rest, loaded => finalLoaded rest (handle_request rt u loaded).2

/-! ## The dispatcher (`src/main.py`) -/

/-- A record published to the outbound sink: the processed data plus the
`processor` identity attached at line 102. -/
structure Published where
  record : ScrapeResult
  processor : String
deriving DecidableEq

/-- `process_scrape_task` (main.py lines 61–73): awaits the session; an
empty (falsy) `html_content` short-circuits to `None` before any
post-processing; `except Exception` converts other errors to `None`, but a
`CancelledError` is not an `Exception` and propagates.  The out-of-scope
post-processor `from_scraper_to_parsed_data` is an arbitrary total
parameter `parse` (its value is irrelevant to the claims proved here). -/
def process_scrape_task (parse : ScrapeResult → ScrapeResult)
    (out : SessionOutcome) : Except Exc (Option ScrapeResult) :=
  match out with
  | .raised .cancelled => .error .cancelled
  | .raised _ => .ok none
  | .returned r =>
      if r.html_content = "" then .ok none
      else .ok (some (parse r))

/-- `process_domain` (main.py lines 95–109): publish only when
`process_scrape_task` produced a (truthy) result, attaching the client
name; `CancelledError` and other exceptions are swallowed with nothing
published. -/
def process_domain (parse : ScrapeResult → ScrapeResult) (client_name : String)
    (out : SessionOutcome) : Option Published :=
  match process_scrape_task parse out with
  | .error _ => none
  | .ok none => none
  | .ok (some d) => some ⟨d, client_name⟩

/-! ## Helper lemmas about the session -/

/-- From the loop's initial state (all three counters zero) the guard
`total < unchanged + changed` is `0 < 0`, false, so the loop exits at once
for every scheduler allowance: the state is returned untouched. -/
theorem convergenceLoop_init (poll : Nat → String) (no_change_limit change_limit fuel : Nat)
    (prev : Option String) (c st0 : String) :
    convergenceLoop poll no_change_limit change_limit fuel ⟨0, 0, 0, prev, c, st0⟩ =
      ⟨0, 0, 0, prev, c, st0⟩ := by
  cases fuel with
  | zero => rfl
  | succ n => simp [convergenceLoop]

/-- The `finally:` block calls `update_load_time` exactly once, before the
close steps, so the post-DNS part of the session logs exactly one call no
matter how it ends. -/
theorem mainSession_one_update (url domain : String) (ips : List String)
    (ncl cl : Nat) (env : Env) :
    (mainSession url domain ips ncl cl env).2.updateCalls.length = 1 := by
  dsimp only [mainSession]
  cases hfe : finallyEscape env (tryBody url ncl cl env).contextOpened
      (tryBody url ncl cl env).pageOpened (tryBody url ncl cl env).browserOpened <;> rfl

/-- When the try-block finishes without an exception, `status_code` was set
to `"complete"` (line 213) and never changed again. -/
theorem tryBody_none_status (url : String) (ncl cl : Nat) (env : Env) :
    (tryBody url ncl cl env).exc = none →
    (tryBody url ncl cl env).st.status_code = "complete" := by
  dsimp only [tryBody]
  cases env.launchExc <;> cases env.contextExc <;> cases env.pageExc <;>
    cases env.gotoExc <;> cases env.contentExc <;> cases env.waitExc <;>
    cases env.gatherExc <;>
    (try rcases obfLoop (env.scripts.map Prod.snd) with m | b) <;>
    dsimp only <;> intro h <;> first | rfl | exact Option.noConfusion h

/-- Case analysis of a returned dictionary from the post-DNS part of the
session: it is exactly one of the four handler results, and on the
no-exception path the status is `"complete"`. -/
theorem mainSession_returned (url domain : String) (ips : List String)
    (ncl cl : Nat) (env : Env) (r : ScrapeResult) :
    (mainSession url domain ips ncl cl env).1 = .returned r →
    (r = cancelResult url domain ∨
     r = timeoutResult url ips (tryBody url ncl cl env).st ∨
     (∃ m, r = failResult url ips (tryBody url ncl cl env).st m) ∨
     (r = completeResult url ips (tryBody url ncl cl env).st ∧
       (tryBody url ncl cl env).st.status_code = "complete")) := by
  dsimp only [mainSession]
  cases finallyEscape env (tryBody url ncl cl env).contextOpened
      (tryBody url ncl cl env).pageOpened (tryBody url ncl cl env).browserOpened with
  | some e =>
    dsimp only
    intro h
    exact SessionOutcome.noConfusion h
  | none =>
    dsimp only
    cases hex : (tryBody url ncl cl env).exc with
    | none =>
      dsimp only
      intro h
      injection h with h
      exact Or.inr (Or.inr (Or.inr ⟨h.symm, tryBody_none_status url ncl cl env hex⟩))
    | some e =>
      cases e with
      | cancelled =>
        dsimp only
        intro h
        injection h with h
        exact Or.inl h.symm
      | timeoutE =>
        dsimp only
        intro h
        injection h with h
        exact Or.inr (Or.inl h.symm)
      | other m =>
        dsimp only
        intro h
        injection h with h
        exact Or.inr (Or.inr (Or.inl ⟨m, h.symm⟩))

/-- Case analysis of any returned dictionary of a whole session: it comes
from exactly one of the five exit paths. -/
theorem session_returned (url0 : String) (ncl cl : Nat) (env : Env) (r : ScrapeResult) :
    (scrape_website_async url0 ncl cl env).1 = .returned r →
    (r = dnsErrorResult (sessionDomain url0) ∨
     r = cancelResult (normalizeUrl url0) (sessionDomain url0) ∨
     (∃ ips st, r = timeoutResult (normalizeUrl url0) ips st) ∨
     (∃ ips st m, r = failResult (normalizeUrl url0) ips st m) ∨
     (∃ ips st, r = completeResult (normalizeUrl url0) ips st ∧ st.status_code = "complete")) := by
  dsimp only [scrape_website_async, dns_resolve, sessionDomain]
  cases env.dns (pyNetloc (normalizeUrl url0)) with
  | raisesOther m =>
    dsimp only
    intro h
    exact SessionOutcome.noConfusion h
  | knownFail =>
    dsimp only
    intro h
    injection h with h
    exact Or.inl h.symm
  | answers ips =>
    cases ips with
    | nil =>
      dsimp only
      intro h
      injection h with h
      exact Or.inl h.symm
    | cons ip0 rest =>
      dsimp only
      intro h
      rcases mainSession_returned (normalizeUrl url0) (pyNetloc (normalizeUrl url0))
          (ip0 :: rest) ncl cl env r h with h1 | h1 | ⟨m, h1⟩ | ⟨h1, h2⟩
      · exact Or.inr (Or.inl h1)
      · exact Or.inr (Or.inr (Or.inl ⟨_, _, h1⟩))
      · exact Or.inr (Or.inr (Or.inr (Or.inl ⟨_, _, m, h1⟩)))
      · exact Or.inr (Or.inr (Or.inr (Or.inr ⟨_, _, h1, h2⟩)))

/-! ## Helper lemmas about the request filter -/

theorem contains_of_mem {u : String} {L : List String} (h : u ∈ L) : L.contains u = true := by
  simp [List.contains, List.elem_iff]
  exact h

/-- The dedup set only grows: no branch of the filter removes a URL. -/
theorem handle_request_mem_mono (rt v : String) (L : List String) {u : String} (h : u ∈ L) :
    u ∈ (handle_request rt v L).2 := by
  unfold handle_request
  split
  · exact h
  · split
    · exact h
    · split
      · exact h
      · exact List.mem_cons_of_mem v h

/-- A request for a URL already in the dedup set is aborted, whatever its
resource type (rule 1, 2 or 3 fires; the `continue_` branch is
unreachable). -/
theorem handle_request_abort_of_mem (rt : String) (L : List String) {u : String} (h : u ∈ L) :
    (handle_request rt u L).1 = .aborted := by
  unfold handle_request
  split
  · rfl
  · split
    · rfl
    · split
      · rfl
      · rename_i h3
        exact absurd (contains_of_mem h) h3

/-- An allowed request records its URL in the dedup set (line 320). -/
theorem handle_request_continued_mem (rt u : String) (L : List String) :
    (handle_request rt u L).1 = .continued → u ∈ (handle_request rt u L).2 := by
  unfold handle_request
  split
  · intro h; exact RouteAction.noConfusion h
  · split
    · intro h; exact RouteAction.noConfusion h
    · split
      · intro h; exact RouteAction.noConfusion h
      · intro _; exact List.mem_cons_self u L

theorem finalLoaded_mem_mono (rs : List (String × String)) (L : List String) {u : String}
    (h : u ∈ L) : u ∈ finalLoaded rs L := by
  induction rs generalizing L with
  | nil => exact h
  | cons p rest ih => exact ih _ (handle_request_mem_mono p.1 p.2 L h)

theorem runRequests_length (rs : List (String × String)) (L : List String) :
    (runRequests rs L).length = rs.length := by
  induction rs generalizing L with
  | nil => rfl
  | cons p rest ih => simp [runRequests, ih]

theorem runRequests_append (xs ys : List (String × String)) (L : List String) :
    runRequests (xs ++ ys) L = runRequests xs L ++ runRequests ys (finalLoaded xs L) := by
  induction xs generalizing L with
  | nil => rfl
  | cons p rest ih => simp [runRequests, finalLoaded, ih]

/-- Once a URL is in the dedup set, every request for it in the rest of the
sequence is aborted. -/
theorem runRequests_aborted_of_mem (rs : List (String × String)) (L : List String)
    {u : String} (h : u ∈ L) (k : Nat) (rt : String) (hk : rs[k]? = some (rt, u)) :
    (runRequests rs L)[k]? = some .aborted := by
  induction rs generalizing L k with
  | nil => simp at hk
  | cons p rest ih =>
    obtain ⟨rt0, u0⟩ := p
    cases k with
    | zero =>
      rw [List.getElem?_cons_zero] at hk
      injection hk with hk
      injection hk with h1 h2
      subst h2
      simp only [runRequests, List.getElem?_cons_zero, Option.some.injEq]
      exact handle_request_abort_of_mem rt0 L h
    | succ k =>
      rw [List.getElem?_cons_succ] at hk
      simp only [runRequests, List.getElem?_cons_succ]
      exact ih _ (handle_request_mem_mono rt0 u0 L h) k hk

/-! ## Concrete environments used by witnesses and counterexamples -/

/-- The close steps of the `finally:` block let no exception escape as long
as `context.close()` does not raise a cancellation and `page.close()` and
`browser.close()` succeed. -/
theorem finallyEscape_none (env : Env) (c p b : Bool)
    (h1 : env.ctxCloseExc ≠ some .cancelled) (h2 : env.pageCloseExc = none)
    (h3 : env.browserCloseExc = none) :
    finallyEscape env c p b = none := by
  unfold finallyEscape
  rw [h2, h3]
  cases c with
  | false => cases p <;> cases b <;> rfl
  | true =>
    cases hcc : env.ctxCloseExc with
    | none => cases p <;> cases b <;> rfl
    | some e =>
      cases e with
      | cancelled => exact absurd hcc h1
      | timeoutE => cases p <;> cases b <;> rfl
      | other m => cases p <;> cases b <;> rfl

/-- An environment in which every external step succeeds. -/
def envAllOk : Env :=
  { dns := fun _ => .answers ["1.2.3.4"]
    launchExc := none, contextExc := none, pageExc := none, gotoExc := none
    contentExc := none, content1 := "<html>first</html>"
    waitExc := none, finalUrl := "https://example.com/"
    poll := fun _ => "", pollFuel := 5
    scripts := [], gatherExc := none
    ctxCloseExc := none, pageCloseExc := none, browserCloseExc := none }

/-- An environment whose DNS lookup finds no A records. -/
def envDnsFail : Env := { envAllOk with dns := fun _ => .knownFail }

/-- An environment in which DNS succeeds, the first snapshot is captured,
and the task is then cancelled (at the `wait_for_selector` suspension
point). -/
def envCancelMid : Env :=
  { envAllOk with
    dns := fun _ => .answers ["93.184.216.34"]
    waitExc := some .cancelled
    content1 := "<p>partial</p>" }

/-- An environment in which everything succeeds except `page.close()`
during teardown. -/
def envPageCloseFail : Env := { envAllOk with pageCloseExc := some (.other "page close failed") }

/-! ## C1 — proxy feedback exactly once per task -/

/-- C1 (counterexample): a session that exits on the DNS Error path calls
`update_load_time` zero times, because the DNS-error `return` (line 131)
happens before the `try`/`finally` block — refuting the claim that the
call happens exactly once on every exit path including DNS Error. -/
theorem c1_counterexample :
    (scrape_website_async "unresolvable.example" 3 4 envDnsFail).1 =
      .returned (dnsErrorResult "unresolvable.example") ∧
    (scrape_website_async "unresolvable.example" 3 4 envDnsFail).2.updateCalls.length = 0 :=
  ⟨rfl, rfl⟩

/-- C1 (amended): `update_load_time` is invoked exactly once per task on
every exit path that passes the DNS gate (complete, Timeout, Cancelled,
Failed, and even when a teardown exception escapes), and zero times on the
DNS Error path: the number of calls is 1 precisely when the DNS pre-check
returned a nonempty address list. -/
theorem c1_amended (url0 : String) (ncl cl : Nat) (env : Env) :
    (scrape_website_async url0 ncl cl env).2.updateCalls.length =
      cond (dnsGate (env.dns (sessionDomain url0))) 1 0 := by
  dsimp only [scrape_website_async, dns_resolve, sessionDomain]
  cases env.dns (pyNetloc (normalizeUrl url0)) with
  | raisesOther m => rfl
  | knownFail => rfl
  | answers ips =>
    cases ips with
    | nil => rfl
    | cons ip0 rest => exact mainSession_one_update _ _ _ _ _ _

/-! ## C2 — the convergence loop body never executes -/

/-- C2: the convergence loop's entry condition compares the iteration count
against the sum of the two counters, all starting at zero, so the loop body
executes zero times (the loop state is returned untouched for every
scheduler allowance, so content stability is never verified); consequently,
for every session that reaches the content-polling phase and finishes
without an exception, the final `html_content` is the first snapshot taken
after navigation and the final status is `"complete"` (never
`"loading"`). -/
theorem c2_theorem :
    (∀ (poll : Nat → String) (ncl cl fuel : Nat) (prev : Option String) (c st0 : String),
      convergenceLoop poll ncl cl fuel ⟨0, 0, 0, prev, c, st0⟩ = ⟨0, 0, 0, prev, c, st0⟩) ∧
    (∀ (url0 : String) (ncl cl : Nat) (env : Env) (ip0 : String) (ips : List String) (b : Bool),
      env.dns (sessionDomain url0) = .answers (ip0 :: ips) →
      env.launchExc = none → env.contextExc = none → env.pageExc = none →
      env.gotoExc = none → env.contentExc = none → env.waitExc = none →
      env.gatherExc = none →
      obfLoop (env.scripts.map Prod.snd) = .ok b →
      env.ctxCloseExc ≠ some .cancelled →
      env.pageCloseExc = none → env.browserCloseExc = none →
      ∃ r, (scrape_website_async url0 ncl cl env).1 = .returned r ∧
        r.status_code = "complete" ∧ r.html_content = env.content1) := by
  constructor
  · exact convergenceLoop_init
  · intro url0 ncl cl env ip0 ips b hdns hl hc hp hg hct hw hga hob hctx hpg hbr
    have htb : tryBody (normalizeUrl url0) ncl cl env =
        ⟨⟨is_redirected_to_different_domain (normalizeUrl url0) env.finalUrl, b,
          env.scripts.map (fun p => pyUrlPath p.1), env.content1, "complete"⟩,
         none, true, true, true⟩ := by
      dsimp only [tryBody]
      rw [hl, hc, hp, hg, hct, hw, hga, hob]
      dsimp only
      rw [convergenceLoop_init]
    dsimp only [scrape_website_async, dns_resolve, sessionDomain] at *
    rw [hdns]
    dsimp only [mainSession]
    rw [htb]
    dsimp only
    have hfe := finallyEscape_none env true true true hctx hpg hbr
    rw [hfe]
    refine ⟨_, rfl, rfl, ?_⟩
    dsimp only [completeResult]
    exact pyOrEmptyStr_eq env.content1

/-- C2 (witness): a fully successful session, evaluated concretely. -/
theorem c2_witness :
    ∃ r, (scrape_website_async "example.com" 3 4 envAllOk).1 = .returned r ∧
      r.status_code = "complete" ∧ r.html_content = envAllOk.content1 :=
  c2_theorem.2 "example.com" 3 4 envAllOk "1.2.3.4" [] false rfl rfl rfl rfl rfl rfl
    rfl rfl rfl (by decide) rfl rfl

/-! ## C3 — no exception escapes a session -/

/-- C3 (counterexample): a failure in `page.close()` during teardown
(line 274, unguarded) escapes `scrape_website_async` even though every
pipeline step succeeded — refuting the claim that exceptions raised while
closing the page or the browser are caught. -/
theorem c3_counterexample :
    (scrape_website_async "example.com" 3 4 envPageCloseFail).1 =
      .raised (.other "page close failed") := rfl

/-- C3 (amended): no exception raised inside the main `try:` block escapes
a session — every such exception is converted to a `ScrapeResult` — as
long as the DNS pre-check does not raise an uncaught resolver exception
type, `context.close()` does not raise a cancellation, and `page.close()`
and `browser.close()` succeed (these teardown steps are unguarded in the
code and their failures do escape). -/
theorem c3_amended (url0 : String) (ncl cl : Nat) (env : Env)
    (hdns : ∀ m, env.dns (sessionDomain url0) ≠ .raisesOther m)
    (hctx : env.ctxCloseExc ≠ some .cancelled)
    (hpg : env.pageCloseExc = none) (hbr : env.browserCloseExc = none) :
    ∃ r, (scrape_website_async url0 ncl cl env).1 = .returned r := by
  dsimp only [scrape_website_async, dns_resolve, sessionDomain] at *
  cases hd : env.dns (pyNetloc (normalizeUrl url0)) with
  | raisesOther m => exact absurd hd (hdns m)
  | knownFail => exact ⟨_, rfl⟩
  | answers ips =>
    cases ips with
    | nil => exact ⟨_, rfl⟩
    | cons ip0 rest =>
      dsimp only [mainSession]
      have hfe := finallyEscape_none env (tryBody (normalizeUrl url0) ncl cl env).contextOpened
        (tryBody (normalizeUrl url0) ncl cl env).pageOpened
        (tryBody (normalizeUrl url0) ncl cl env).browserOpened hctx hpg hbr
      rw [hfe]
      exact ⟨_, rfl⟩

/-- C3 (witness): with a benign teardown, a concrete session returns a
result. -/
theorem c3_witness :
    ∃ r, (scrape_website_async "example.com" 3 4 envAllOk).1 = .returned r :=
  c3_amended "example.com" 3 4 envAllOk
    (fun m h => ResolverOutcome.noConfusion h) (by decide) rfl rfl

/-! ## C4 — cancellation discards partial data -/

/-- C4 (counterexample): a session cancelled after DNS resolved
`["93.184.216.34"]` and after the first HTML snapshot `"<p>partial</p>"`
was captured returns the `Cancelled` dictionary with `ip = None` and
`html_content = ""` — the partial data is *not* preserved, refuting the
claim. -/
theorem c4_counterexample :
    envCancelMid.dns "example.com" = .answers ["93.184.216.34"] ∧
    envCancelMid.content1 = "<p>partial</p>" ∧
    (outcomeResult (scrape_website_async "example.com" 3 4 envCancelMid).1).map
      ScrapeResult.status_code = some "Cancelled" ∧
    (outcomeResult (scrape_website_async "example.com" 3 4 envCancelMid).1).map
      ScrapeResult.ip = some none ∧
    (outcomeResult (scrape_website_async "example.com" 3 4 envCancelMid).1).map
      ScrapeResult.html_content = some "" :=
  ⟨rfl, rfl, rfl, rfl, rfl⟩

/-- C4 (amended): every session terminated by cancellation produces a
`ScrapeResult` whose `ip` field is null and whose `html_content` is empty —
the cancellation handler (lines 225–234) discards the resolved IP list and
any partially captured HTML rather than preserving them. -/
theorem c4_amended (url0 : String) (ncl cl : Nat) (env : Env) (r : ScrapeResult)
    (h : (scrape_website_async url0 ncl cl env).1 = .returned r)
    (hst : r.status_code = "Cancelled") :
    r.ip = none ∧ r.html_content = "" := by
  rcases session_returned url0 ncl cl env r h with
    h1 | h1 | ⟨ips, st, h1⟩ | ⟨ips, st, m, h1⟩ | ⟨ips, st, h1, h2⟩
  · rw [h1] at hst
    dsimp only [dnsErrorResult] at hst
    exact absurd hst (by decide)
  · rw [h1]
    exact ⟨rfl, rfl⟩
  · rw [h1] at hst
    dsimp only [timeoutResult] at hst
    exact absurd hst (by decide)
  · rw [h1] at hst
    dsimp only [failResult] at hst
    exact absurd hst (by decide)
  · rw [h1] at hst
    dsimp only [completeResult] at hst
    rw [h2] at hst
    exact absurd hst (by decide)

/-- C4 (witness): the amended theorem applied to the concrete cancelled
session of the counterexample environment. -/
theorem c4_witness :
    (cancelResult "https://example.com" "example.com").ip = none ∧
    (cancelResult "https://example.com" "example.com").html_content = "" :=
  c4_amended "example.com" 3 4 envCancelMid
    (cancelResult "https://example.com" "example.com") rfl rfl

/-! ## C5 — the obfuscation heuristic on dense prefixes -/

/-- C5 (counterexample): a 480-character script whose first-quarter prefix
(120 characters) contains 7 hex-literal tokens — so at least 6, at density
7/120 > 0.05 — for which `detect_obfuscation` nevertheless returns
`false`: the early return fires at the 6th match with density
6/120 = 0.05, which is not strictly greater than the threshold. -/
def cex5 : String := "0x0 0x0 0x0 0x0 0x0 0x0 0x0 " ++ String.mk (List.replicate 452 'q')

set_option maxRecDepth 40000 in
/-- C5 (counterexample): see `cex5` — the claim's hypotheses hold (at least
6 tokens in the first 25% and prefix density above 0.05) yet the heuristic
answers negative. -/
theorem c5_counterexample :
    6 ≤ hexCount (cex5.data.take (cex5.data.length / 4)) ∧
    20 * hexCount (cex5.data.take (cex5.data.length / 4)) > cex5.data.length / 4 ∧
    detect_obfuscation cex5 = some false :=
  ⟨by decide, by decide, by decide⟩

/-- C5 (amended): a script body with at least 6 hex-literal tokens inside
its first 25% is flagged positive exactly when the density computed *at the
6th match* exceeds 0.05, i.e. when the sampled prefix is shorter than 120
characters (6 / sample_length > 0.05); the count of further tokens in the
prefix plays no role. -/
theorem c5_amended (js : String)
    (h6 : 6 ≤ hexCount (js.data.take (js.data.length / 4)))
    (hlen : js.data.length / 4 < 120) :
    detect_obfuscation js = some true := by
  have hne : ¬ (js.data.length = 0) := by
    intro h0
    rw [List.length_eq_zero] at h0
    rw [h0] at h6
    simp [hexCount, hexScan] at h6
  unfold detect_obfuscation
  rw [if_neg hne]
  dsimp only
  rw [if_pos (show 5 < hexCount (js.data.take (js.data.length / 4)) by omega)]
  rw [decide_eq_true hlen]

/-- A 96-character script whose 24-character prefix holds 6 hex tokens. -/
def js96 : String := "0x0 0x0 0x0 0x0 0x0 0x0 " ++ String.mk (List.replicate 72 'q')

/-- C5 (witness): the amended theorem evaluated on `js96`. -/
theorem c5_witness : detect_obfuscation js96 = some true :=
  c5_amended js96 (by decide) (by decide)

/-! ## C6 — the DNS Error path -/

/-- C6: a domain whose DNS pre-check yields no addresses (failure or an
empty answer list) makes the session return `status_code = "DNS Error"`,
`ip = None` and empty `html_content`, with no browser, context or page
opened. -/
theorem c6_theorem (url0 : String) (ncl cl : Nat) (env : Env)
    (hdns : env.dns (sessionDomain url0) = .knownFail ∨
      env.dns (sessionDomain url0) = .answers []) :
    ∃ r, (scrape_website_async url0 ncl cl env).1 = .returned r ∧
      r.status_code = "DNS Error" ∧ r.ip = none ∧ r.html_content = "" ∧
      (scrape_website_async url0 ncl cl env).2.browserOpened = false ∧
      (scrape_website_async url0 ncl cl env).2.contextOpened = false ∧
      (scrape_website_async url0 ncl cl env).2.pageOpened = false := by
  dsimp only [scrape_website_async, dns_resolve, sessionDomain] at *
  rcases hdns with hd | hd <;> rw [hd] <;> exact ⟨_, rfl, rfl, rfl, rfl, rfl, rfl, rfl⟩

/-- C6 (witness): the theorem evaluated on a concrete unresolvable
domain. -/
theorem c6_witness :
    ∃ r, (scrape_website_async "unresolvable.example" 3 4 envDnsFail).1 = .returned r ∧
      r.status_code = "DNS Error" ∧ r.ip = none ∧ r.html_content = "" ∧
      (scrape_website_async "unresolvable.example" 3 4 envDnsFail).2.browserOpened = false ∧
      (scrape_website_async "unresolvable.example" 3 4 envDnsFail).2.contextOpened = false ∧
      (scrape_website_async "unresolvable.example" 3 4 envDnsFail).2.pageOpened = false :=
  c6_theorem "unresolvable.example" 3 4 envDnsFail (Or.inl rfl)

/-! ## C7 — request deduplication -/

/-- C7 (counterexample): two identical image requests are *both* aborted —
the first request is not allowed (rule 1 fires before the dedup rule), so
the claim that the first request for every repeated URL is allowed and
recorded is false. -/
theorem c7_counterexample :
    runRequests [("image", "https://site.example/pic.png"),
      ("image", "https://site.example/pic.png")] [] = [.aborted, .aborted] := by decide

/-- C7 (amended): in any session request sequence, when a request for a URL
is allowed (which records it in the dedup set), every later request for the
same URL — of any resource type — is aborted. -/
theorem c7_amended (xs ys zs : List (String × String)) (rt1 rt2 u : String)
    (h : (runRequests (xs ++ (rt1, u) :: (ys ++ (rt2, u) :: zs)) [])[xs.length]? =
      some .continued) :
    (runRequests (xs ++ (rt1, u) :: (ys ++ (rt2, u) :: zs)) [])[xs.length + 1 + ys.length]? =
      some .aborted := by
  rw [runRequests_append] at h ⊢
  rw [List.getElem?_append_right (by rw [runRequests_length])] at h
  rw [List.getElem?_append_right (by rw [runRequests_length]; omega)]
  rw [runRequests_length] at h ⊢
  simp only [Nat.sub_self] at h
  have hidx : xs.length + 1 + ys.length - xs.length = ys.length + 1 := by omega
  rw [hidx]
  simp only [runRequests, List.getElem?_cons_zero, Option.some.injEq] at h
  simp only [runRequests, List.getElem?_cons_succ]
  have hmem : u ∈ (handle_request rt1 u (finalLoaded xs [])).2 :=
    handle_request_continued_mem rt1 u (finalLoaded xs []) h
  refine runRequests_aborted_of_mem _ _ hmem ys.length rt2 ?_
  rw [List.getElem?_append_right (le_refl ys.length), Nat.sub_self, List.getElem?_cons_zero]

/-- C7 (witness): a script request is allowed and the repeat of the same
URL is aborted. -/
theorem c7_witness :
    (runRequests [("script", "https://site.example/app.js"),
      ("xhr", "https://site.example/app.js")] [])[1]? = some .aborted :=
  c7_amended [] [] [] "script" "xhr" "https://site.example/app.js" (by decide)

/-! ## C8 — `detect_obfuscation` divides by zero on tiny inputs -/

/-- C8: for every script body of length 1 to 3 the sampled prefix length
`int(len * 0.25)` is 0 and the density computation `hex_count /
sample_length` divides by zero, so `detect_obfuscation` raises
(`none` in this embedding) instead of returning a boolean. -/
theorem c8_theorem (s : String) (h1 : 1 ≤ s.length) (h3 : s.length ≤ 3) :
    s.length / 4 = 0 ∧ detect_obfuscation s = none := by
  have hd : s.length = s.data.length := rfl
  have h40 : s.data.length / 4 = 0 := Nat.div_eq_of_lt (by omega)
  refine ⟨by omega, ?_⟩
  unfold detect_obfuscation
  rw [if_neg (show ¬ s.data.length = 0 by omega)]
  dsimp only
  rw [h40, List.take_zero]
  dsimp only [hexCount, hexScan]
  rw [if_neg (by omega : ¬ (5 : Nat) < 0)]
  rw [if_pos rfl]

/-- C8 (witness): the theorem evaluated at the two-character body
`"ab"`. -/
theorem c8_witness : ("ab" : String).length / 4 = 0 ∧ detect_obfuscation "ab" = none :=
  c8_theorem "ab" (by decide) (by decide)

/-! ## C9 — empty `html_content` is never published -/

/-- C9: for every session result whose `html_content` is the empty string,
`process_scrape_task` returns `None` and `process_domain` publishes
nothing; and every returned result with status `"DNS Error"` or
`"Cancelled"` has empty `html_content`. -/
theorem c9_theorem (parse : ScrapeResult → ScrapeResult) (client_name : String) :
    (∀ r : ScrapeResult, r.html_content = "" →
      process_scrape_task parse (.returned r) = .ok none ∧
      process_domain parse client_name (.returned r) = none) ∧
    (∀ (url0 : String) (ncl cl : Nat) (env : Env) (r : ScrapeResult),
      (scrape_website_async url0 ncl cl env).1 = .returned r →
      (r.status_code = "DNS Error" ∨ r.status_code = "Cancelled") →
      r.html_content = "") := by
  constructor
  · intro r hr
    have h1 : process_scrape_task parse (.returned r) = .ok none := by
      dsimp only [process_scrape_task]
      rw [if_pos hr]
    refine ⟨h1, ?_⟩
    dsimp only [process_domain]
    rw [h1]
  · intro url0 ncl cl env r h hst
    rcases session_returned url0 ncl cl env r h with
      h1 | h1 | ⟨ips, st, h1⟩ | ⟨ips, st, m, h1⟩ | ⟨ips, st, h1, h2⟩
    · rw [h1]; rfl
    · rw [h1]; rfl
    · rw [h1] at hst
      dsimp only [timeoutResult] at hst
      rcases hst with hst | hst <;> exact absurd hst (by decide)
    · rw [h1] at hst
      dsimp only [failResult] at hst
      rcases hst with hst | hst <;> exact absurd hst (by decide)
    · rw [h1] at hst
      dsimp only [completeResult] at hst
      rw [h2] at hst
      rcases hst with hst | hst <;> exact absurd hst (by decide)

/-- C9 (witness): the theorem evaluated at a concrete DNS Error result. -/
theorem c9_witness :
    process_scrape_task id (.returned (dnsErrorResult "unresolvable.example")) = .ok none ∧
    process_domain id "worker-1" (.returned (dnsErrorResult "unresolvable.example")) = none :=
  (c9_theorem id "worker-1").1 (dnsErrorResult "unresolvable.example") rfl

/-! ## C10 — the `domain` field across exit paths -/

/-- C10 (counterexample): the input `"ftp://example.com"` *has* a scheme,
yet on the complete path the result's `domain` is
`"https://ftp://example.com"` — the code prepends `https://` because the
input does not start with `"http"`, not because it lacks a scheme,
refuting the claim's "prepended when the input lacked a scheme". -/
theorem c10_counterexample :
    specHasScheme "ftp://example.com" = true ∧
    (outcomeResult (scrape_website_async "ftp://example.com" 3 4 envAllOk).1).map
      ScrapeResult.status_code = some "complete" ∧
    (outcomeResult (scrape_website_async "ftp://example.com" 3 4 envAllOk).1).map
      ScrapeResult.domain = some "https://ftp://example.com" ∧
    "https://ftp://example.com" ≠ "ftp://example.com" :=
  ⟨rfl, rfl, rfl, by decide⟩

/-- C10 (amended): the `domain` field is not uniform across exit paths: on
the DNS Error path it is the bare netloc parsed from the normalized URL,
while on every other returned path it is the full input URL with
`"https://"` prepended when the input does not start with `"http"` (the
code's test, line 104 — not a scheme-presence test). -/
theorem c10_amended (url0 : String) (ncl cl : Nat) (env : Env) (r : ScrapeResult)
    (h : (scrape_website_async url0 ncl cl env).1 = .returned r) :
    (r.status_code = "DNS Error" → r.domain = sessionDomain url0) ∧
    (r.status_code ≠ "DNS Error" → r.domain = normalizeUrl url0) := by
  rcases session_returned url0 ncl cl env r h with
    h1 | h1 | ⟨ips, st, h1⟩ | ⟨ips, st, m, h1⟩ | ⟨ips, st, h1, h2⟩
  · rw [h1]
    exact ⟨fun _ => rfl, fun hne => absurd rfl hne⟩
  · rw [h1]
    refine ⟨fun hst => ?_, fun _ => rfl⟩
    dsimp only [cancelResult] at hst
    exact absurd hst (by decide)
  · rw [h1]
    refine ⟨fun hst => ?_, fun _ => rfl⟩
    dsimp only [timeoutResult] at hst
    exact absurd hst (by decide)
  · rw [h1]
    refine ⟨fun hst => ?_, fun _ => rfl⟩
    dsimp only [failResult] at hst
    exact absurd hst (by decide)
  · rw [h1]
    refine ⟨fun hst => ?_, fun _ => rfl⟩
    dsimp only [completeResult] at hst
    rw [h2] at hst
    exact absurd hst (by decide)

/-- C10 (witness): the amended theorem evaluated on a concrete completed
session. -/
theorem c10_witness :
    ((completeResult "https://example.com" ["1.2.3.4"]
        ⟨.falseV, false, [], "<html>first</html>", "complete"⟩).status_code = "DNS Error" →
      (completeResult "https://example.com" ["1.2.3.4"]
        ⟨.falseV, false, [], "<html>first</html>", "complete"⟩).domain =
        sessionDomain "example.com") ∧
    ((completeResult "https://example.com" ["1.2.3.4"]
        ⟨.falseV, false, [], "<html>first</html>", "complete"⟩).status_code ≠ "DNS Error" →
      (completeResult "https://example.com" ["1.2.3.4"]
        ⟨.falseV, false, [], "<html>first</html>", "complete"⟩).domain =
        normalizeUrl "example.com") :=
  c10_amended "example.com" 3 4 envAllOk
    (completeResult "https://example.com" ["1.2.3.4"]
      ⟨.falseV, false, [], "<html>first</html>", "complete"⟩) rfl
